import Mathlib

/-!
Verification development for the weather-check tray widget
(src/tray/weather_tray.py), a GNOME AppIndicator applet that fetches
weather data, selects a theme icon from a symbol code, renders a dynamic
icon with a temperature overlay and updates tray state on a timer.

The Python module is embedded shallowly: scalar JSON/Python values become
an inductive type over rationals and strings, fallible operations return
Option, exceptions caught by try/except blocks become explicit Except or
Option inputs, and the stateful refresh cycle becomes a pure step function
on an explicit state record.
-/

/-- A Python scalar value as it occurs in the decoded JSON documents:
None (also modelling an absent key reached through dict.get), a string,
a float (modelled as a rational) or an int. -/
inductive PyVal where
  | none : PyVal
  | str : String → PyVal
  | num : ℚ → PyVal
  | int : ℤ → PyVal
deriving DecidableEq, Repr

/-- Value of a list of decimal digit characters, most significant first. -/
def digitsToNat (cs : List Char) : ℕ :=
  cs.foldl (fun a c => a * 10 + (c.toNat - 48)) 0

/-- Python str.strip(): drop whitespace from both ends. -/
def pyStrip (s : String) : String :=
  String.mk (((s.toList.dropWhile Char.isWhitespace).reverse.dropWhile
      Char.isWhitespace).reverse)

/-- Parse an unsigned decimal literal, optionally with a fractional part,
as Python float() accepts for the plain forms "12", "12.5", "12.", ".5". -/
def parseUnsigned? (cs : List Char) : Option ℚ :=
  let intPart := cs.takeWhile Char.isDigit
  let rest := cs.dropWhile Char.isDigit
  match rest with
  | [] =>
      if intPart.isEmpty then Option.none
      else some (mkRat (digitsToNat intPart) 1)
  | '.' :: frac =>
      if frac.all Char.isDigit && !(intPart.isEmpty && frac.isEmpty) then
        some (mkRat (digitsToNat (intPart ++ frac)) (10 ^ frac.length))
      else Option.none
  | _ => Option.none

/-- Python float(s) on a string: strip whitespace, optional sign, decimal
literal.  Returns Option.none where float() would raise ValueError.
(Exponent, inf and nan forms are outside the model; the APIs involved
serve plain decimal literals.) -/
def parseFloat? (s : String) : Option ℚ :=
  match (pyStrip s).toList with
  | '-' :: cs => (parseUnsigned? cs).map (fun q => -q)
  | '+' :: cs => parseUnsigned? cs
  | cs => parseUnsigned? cs

/-- Python float(v) on a scalar: floats and ints convert, strings are
parsed, None (TypeError) fails. -/
def pyFloat? : PyVal → Option ℚ
  | PyVal.none => Option.none
  | PyVal.str s => parseFloat? s
  | PyVal.num q => some q
  | PyVal.int n => some (mkRat n 1)

/-- Python int(s) on a string: strip whitespace, optional sign, digits. -/
def pyInt? (s : String) : Option ℤ :=
  match (pyStrip s).toList with
  | '-' :: cs =>
      if !cs.isEmpty && cs.all Char.isDigit then some (-(digitsToNat cs : ℤ))
      else Option.none
  | '+' :: cs =>
      if !cs.isEmpty && cs.all Char.isDigit then some ((digitsToNat cs : ℤ))
      else Option.none
  | cs =>
      if !cs.isEmpty && cs.all Char.isDigit then some ((digitsToNat cs : ℤ))
      else Option.none

/-- safe_temp: float(v) wrapped in try/except, None on failure. -/
def safe_temp (v : PyVal) : Option ℚ := pyFloat? v

/-- REFRESH_SECONDS = int(os.getenv('WEATHER_TRAY_REFRESH', '600')),
as a function of the optional environment variable.  Option.none models
the ValueError int() raises on a malformed setting. -/
def REFRESH_SECONDS (env : Option String) : Option ℤ :=
  pyInt? (env.getD "600")

/-- SYMBOL_ICON_MAP: ordered mapping from MET Norway symbol-code keys to
theme icon names. -/
def SYMBOL_ICON_MAP : List (List String × String) :=
  [ (["thunder", "thunderstorm"], "weather-storm-symbolic"),
    (["heavysnow", "snow", "lightsnow"], "weather-snow-symbolic"),
    (["heavyrain", "lightrain", "rain", "showers"], "weather-showers-symbolic"),
    (["partlycloudy", "fair"], "weather-few-clouds-symbolic"),
    (["cloudy"], "weather-overcast-symbolic"),
    (["clearsky"], "weather-clear-symbolic") ]

def DEFAULT_ICON : String := "weather-severe-alert-symbolic"

/-- k occurs as a contiguous run inside s (lists of characters). -/
def listInfix (k : List Char) : List Char → Bool
  | [] => k.isEmpty
  | c :: rest => k.isPrefixOf (c :: rest) || listInfix k rest

/-- Python `k in s` on strings: k is a contiguous substring of s. -/
def strContains (s k : String) : Bool := listInfix k.toList s.toList

/-- Python str.lower(), over the ASCII range the symbol codes use. -/
def strLower (s : String) : String := String.mk (s.toList.map Char.toLower)

/-- The for loop of icon_name_from_symbol: scan the map in order, return
the icon of the first pair one of whose keys occurs in s. -/
def lookupIcon : List (List String × String) → String → String
  | [], _ => DEFAULT_ICON
  | (keys, icon) :: rest, s =>
      if keys.any (fun k => strContains s k) then icon else lookupIcon rest s

/-- icon_name_from_symbol: DEFAULT_ICON on a falsy code (None or empty),
otherwise scan SYMBOL_ICON_MAP against the lowercased code. -/
def icon_name_from_symbol (symbol_code : Option String) : String :=
  match symbol_code with
  | Option.none => DEFAULT_ICON
  | some c =>
      if c.isEmpty then DEFAULT_ICON
      else lookupIcon SYMBOL_ICON_MAP (strLower c)

/-- Spec reading of the lookup: the icon of the first pair in list order
for which some key is a substring of the lowercased code, DEFAULT_ICON
when no key matches or when the code is empty or None. -/
def icon_name_spec (symbol_code : Option String) : String :=
  match symbol_code with
  | Option.none => DEFAULT_ICON
  | some c =>
      if c.isEmpty then DEFAULT_ICON
      else
        match SYMBOL_ICON_MAP.find? (fun p => p.1.any (fun k => strContains (strLower c) k)) with
        | some p => p.2
        | Option.none => DEFAULT_ICON

theorem lookupIcon_eq_find (m : List (List String × String)) (s : String) :
    lookupIcon m s =
      match m.find? (fun p => p.1.any (fun k => strContains s k)) with
      | some p => p.2
      | Option.none => DEFAULT_ICON := by
  induction m with
  | nil => rfl
  | cons hd tl ih =>
      obtain ⟨keys, icon⟩ := hd
      by_cases h : keys.any (fun k => strContains s k)
      · simp [lookupIcon, List.find?, h]
      · simp only [Bool.not_eq_true] at h
        simp [lookupIcon, List.find?, h, ih]

/-- C1: icon_name_from_symbol maps every symbol code to the icon of the
first pair of SYMBOL_ICON_MAP, in list order, one of whose keys is a
substring of the lowercased code; it falls back to DEFAULT_ICON when no
key matches or the code is empty or None; and the code partlycloudy
selects weather-few-clouds-symbolic, not weather-overcast-symbolic. -/
theorem c1_icon_name_from_symbol_static_lookup :
    (∀ code : Option String, icon_name_from_symbol code = icon_name_spec code) ∧
    DEFAULT_ICON = "weather-severe-alert-symbolic" ∧
    icon_name_from_symbol Option.none = DEFAULT_ICON ∧
    icon_name_from_symbol (some "") = DEFAULT_ICON ∧
    icon_name_from_symbol (some "partlycloudy") = "weather-few-clouds-symbolic" ∧
    icon_name_from_symbol (some "partlycloudy") ≠ "weather-overcast-symbolic" := by
  refine ⟨?_, rfl, rfl, by decide, by decide, by decide⟩
  intro code
  cases code with
  | none => rfl
  | some s => simp [icon_name_from_symbol, icon_name_spec, lookupIcon_eq_find]

/-- The per-entry payload of one timeseries element, as the tray reads it:
the instant details scalars and, for each of the three forecast horizons,
the symbol_code of its summary (Option.none when the horizon, its summary
or the symbol_code key is absent) together with the next_1_hours
precipitation amount used by the details view. -/
structure TsData where
  air_temperature : PyVal
  wind_speed : PyVal
  relative_humidity : PyVal
  air_pressure_at_sea_level : PyVal
  next1_symbol : Option String
  next6_symbol : Option String
  next12_symbol : Option String
  next1_precip : Option PyVal
deriving DecidableEq, Repr

/-- One timeseries entry: its ISO time string and its data payload. -/
structure TsEntry where
  time : String
  data : TsData
deriving DecidableEq, Repr

/-- The fetched forecast document, reduced to the part the tray reads:
properties.timeseries. -/
structure WeatherDoc where
  timeseries : List TsEntry
deriving DecidableEq, Repr

/-- Python `a or b` where a is an optional string (None or a string) and
falsy means None or empty. -/
def pyOr (a : Option String) (b : String) : String :=
  match a with
  | some s => if s.isEmpty then b else s
  | Option.none => b

/-- The symbol-code fallback chain of refresh_async and
update_details_view: next_1_hours or next_6_hours or next_12_hours
or the empty string. -/
def symFrom (d : TsData) : String :=
  pyOr d.next1_symbol (pyOr d.next6_symbol (pyOr d.next12_symbol ""))

/-- Spec reading of the chain: the first non-empty symbol code among the
three horizons in order, and the empty string when all are absent or
empty. -/
def symSpec (d : TsData) : String :=
  (([d.next1_symbol, d.next6_symbol, d.next12_symbol].filterMap id).find?
      (fun s => !s.isEmpty)).getD ""

/-- Folding pyOr over a list of optional strings. -/
def pyOrChain : List (Option String) → String
  | [] => ""
  | a :: rest => pyOr a (pyOrChain rest)

theorem pyOrChain_eq_find (l : List (Option String)) :
    pyOrChain l = ((l.filterMap id).find? (fun s => !s.isEmpty)).getD "" := by
  induction l with
  | nil => rfl
  | cons hd tl ih =>
      cases hd with
      | none => simpa [pyOrChain, pyOr] using ih
      | some s =>
          by_cases h : s.isEmpty
          · have hne : (!s.isEmpty) = false := by simp [h]
            simp [pyOrChain, pyOr, h, List.find?, hne, ih]
          · have hne : (!s.isEmpty) = true := by simp [h]
            simp [pyOrChain, pyOr, h, List.find?, hne]

/-- C4: the symbol code used for icon selection and shown in the details
summary is the first non-empty symbol_code among the next_1_hours,
next_6_hours and next_12_hours summaries of the entry, in that order, and
the empty string when all three are absent or empty. -/
theorem c4_symbol_fallback_chain :
    (∀ d : TsData, symFrom d = symSpec d) ∧
    (∀ d : TsData, d.next1_symbol = Option.none → d.next6_symbol = some "" →
      d.next12_symbol = Option.none → symFrom d = "") := by
  constructor
  · intro d
    have h : symFrom d = pyOrChain [d.next1_symbol, d.next6_symbol, d.next12_symbol] := rfl
    rw [h, pyOrChain_eq_find]
    rfl
  · intro d h1 h6 h12
    simp [symFrom, pyOr, h1, h6, h12]

/-- Round the fraction num/den (den positive) half to even. -/
def roundHalfEvenAt (num den : ℤ) : ℤ :=
  let f := Int.fdiv num den
  let r := num - f * den
  if 2 * r < den then f
  else if den < 2 * r then f + 1
  else if f % 2 = 0 then f else f + 1

/-- Python round() to an integer: round half to even. -/
def roundHalfEven (q : ℚ) : ℤ := roundHalfEvenAt q.num (q.den : ℤ)

/-- Formatting a float with one decimal place as Python .1f does: round
the tenths (10 num over den) half to even, keep the sign of the value. -/
def fmt1 (q : ℚ) : String :=
  let n := roundHalfEvenAt (10 * q.num) (q.den : ℤ)
  let sign := if q < 0 then "-" else ""
  let m := n.natAbs
  sign ++ toString (m / 10) ++ "." ++ toString (m % 10)

/-- The tray label computed by the refresh worker from the parsed
temperature: the .1f formatting suffixed with the Celsius unit when
safe_temp succeeded, N/A otherwise. -/
def trayLabel (temp : Option ℚ) : String :=
  match temp with
  | some t => fmt1 t ++ "°C"
  | Option.none => "N/A"

/-- The mutable tray state the refresh cycle touches: the cached document
and its update stamp, the menu title and the indicator label and icon. -/
structure TrayState where
  lastData : Option WeatherDoc
  lastUpdate : Option ℕ
  menuTitle : String
  label : String
  iconBase : String
deriving DecidableEq, Repr

/-- The menu title written by the error branch of the worker. -/
def errorTitle (city : String) : String := "Weather — " ++ city ++ " · error"

/-- The try block of the worker up to the first possible exception points:
the fetch itself (an Except input, Except.error standing for any network
or JSON exception) followed by indexing properties.timeseries at 0, which
raises on an empty list. -/
def workerOutcome (fetch : Except Unit WeatherDoc) : Except Unit (WeatherDoc × TsEntry) :=
  match fetch with
  | Except.error e => Except.error e
  | Except.ok doc =>
      match doc.timeseries with
      | [] => Except.error ()
      | ts0 :: _ => Except.ok (doc, ts0)

/-- One refresh cycle of refresh_async as a pure step: from the fetch
outcome and the previous state to the next state, paired with the Bool
the GLib timeout callback returns.  The success branch applies the label,
icon, cached data, timestamp and menu title updates of _apply; the error
branch only rewrites the menu title. -/
def refresh_step (city : String) (now : ℕ) (fetch : Except Unit WeatherDoc)
    (st : TrayState) : TrayState × Bool :=
  match workerOutcome fetch with
  | Except.error _ => ({ st with menuTitle := errorTitle city }, true)
  | Except.ok (doc, ts0) =>
      let temp := safe_temp ts0.data.air_temperature
      let sym := symFrom ts0.data
      let icon := icon_name_from_symbol (some sym)
      let label := trayLabel temp
      ({ lastData := some doc,
         lastUpdate := some now,
         menuTitle := "Weather — " ++ city ++ " · " ++ label,
         label := label,
         iconBase := icon }, true)

/-- The Refresh-now menu handler: it calls refresh_async and discards the
return value. -/
def on_refresh (city : String) (now : ℕ) (fetch : Except Unit WeatherDoc)
    (st : TrayState) : TrayState :=
  (refresh_step city now fetch st).1

/-- C2: after every successful fetch the tray label is the air
temperature in .1f formatting followed by the Celsius unit when
air_temperature parses through safe_temp, and N/A otherwise. -/
theorem c2_label_formatting (city : String) (now : ℕ) (doc : WeatherDoc)
    (ts0 : TsEntry) (rest : List TsEntry) (st : TrayState)
    (hts : doc.timeseries = ts0 :: rest) :
    ((∀ t : ℚ, safe_temp ts0.data.air_temperature = some t →
        ((refresh_step city now (Except.ok doc) st).1).label = fmt1 t ++ "°C") ∧
     (safe_temp ts0.data.air_temperature = Option.none →
        ((refresh_step city now (Except.ok doc) st).1).label = "N/A")) := by
  constructor
  · intro t ht
    simp [refresh_step, workerOutcome, hts, trayLabel, ht]
  · intro ht
    simp [refresh_step, workerOutcome, hts, trayLabel, ht]

/-- 3.52 as an explicit rational (88 over 25). -/
def q352 : ℚ := ⟨88, 25, by decide, by decide⟩

/-- A concrete timeseries entry carrying air_temperature 3.52. -/
def tsWarm : TsEntry :=
  ⟨"2024-01-01T12:00:00Z",
   ⟨PyVal.num q352, PyVal.none, PyVal.none, PyVal.none,
    Option.none, Option.none, Option.none, Option.none⟩⟩

/-- A concrete timeseries entry with no air_temperature key. -/
def tsBare : TsEntry :=
  ⟨"2024-01-01T12:00:00Z",
   ⟨PyVal.none, PyVal.none, PyVal.none, PyVal.none,
    Option.none, Option.none, Option.none, Option.none⟩⟩

/-- A fresh tray state as the constructor leaves it. -/
def initState : TrayState :=
  ⟨Option.none, Option.none, "Weather — Sofia", "…", DEFAULT_ICON⟩

/-- C2 witness: a concrete document with air_temperature 3.52 gets label
3.5°C, and one with the key absent gets N/A. -/
theorem c2_label_formatting_witness :
    ((refresh_step "Sofia" 0 (Except.ok ⟨[tsWarm]⟩) initState).1).label = "3.5°C" ∧
    ((refresh_step "Sofia" 0 (Except.ok ⟨[tsBare]⟩) initState).1).label = "N/A" := by
  constructor
  · rw [(c2_label_formatting "Sofia" 0 ⟨[tsWarm]⟩ tsWarm [] initState rfl).1 q352 rfl]
    decide
  · exact (c2_label_formatting "Sofia" 0 ⟨[tsBare]⟩ tsBare [] initState rfl).2 rfl

/-- C5: when a refresh cycle fails anywhere inside the try block, the
stored weather state is unchanged — lastData, lastUpdate, the indicator
label and icon keep their previous values — and only the menu title is
rewritten to the error title; the step is a total function, so the worker
never propagates the exception. -/
theorem c5_error_keeps_state (city : String) (now : ℕ)
    (fetch : Except Unit WeatherDoc) (st : TrayState)
    (herr : ∀ doc ts0, workerOutcome fetch ≠ Except.ok (doc, ts0)) :
    ((refresh_step city now fetch st).1).lastData = st.lastData ∧
    ((refresh_step city now fetch st).1).lastUpdate = st.lastUpdate ∧
    ((refresh_step city now fetch st).1).label = st.label ∧
    ((refresh_step city now fetch st).1).iconBase = st.iconBase ∧
    ((refresh_step city now fetch st).1).menuTitle = errorTitle city := by
  match hw : workerOutcome fetch with
  | Except.error e =>
      simp [refresh_step, hw]
  | Except.ok (doc, ts0) =>
      exact absurd hw (herr doc ts0)

/-- C5 witness: a failed fetch against the initial state leaves the data,
stamp, label and icon fields and rewrites only the menu title. -/
theorem c5_error_keeps_state_witness :
    ((refresh_step "Sofia" 7 (Except.error ()) initState).1).lastData = Option.none ∧
    ((refresh_step "Sofia" 7 (Except.error ()) initState).1).lastUpdate = Option.none ∧
    ((refresh_step "Sofia" 7 (Except.error ()) initState).1).label = "…" ∧
    ((refresh_step "Sofia" 7 (Except.error ()) initState).1).iconBase = DEFAULT_ICON ∧
    ((refresh_step "Sofia" 7 (Except.error ()) initState).1).menuTitle =
      errorTitle "Sofia" :=
  c5_error_keeps_state "Sofia" 7 (Except.error ()) initState
    (fun _ _ h => Except.noConfusion h)

/-- C8: the Refresh-now handler runs the very same step as the periodic
timer, the step always returns True so the GLib timer is never cancelled,
and the timer interval REFRESH_SECONDS parses the environment override
with default 600. -/
theorem c8_timer_and_manual_refresh :
    (∀ (city : String) (now : ℕ) (fetch : Except Unit WeatherDoc) (st : TrayState),
        (refresh_step city now fetch st).2 = true ∧
        on_refresh city now fetch st = (refresh_step city now fetch st).1) ∧
    REFRESH_SECONDS Option.none = some 600 ∧
    REFRESH_SECONDS (some "45") = some 45 := by
  refine ⟨?_, by decide, by decide⟩
  intro city now fetch st
  refine ⟨?_, rfl⟩
  cases hw : workerOutcome fetch with
  | error e => simp [refresh_step, hw]
  | ok p => obtain ⟨doc, ts0⟩ := p; simp [refresh_step, hw]

/-- A geocoding result element, reduced to the two keys get_coords reads.
The whole-response Option is Option.none when http_get_json raises. -/
structure GeoEntry where
  lat : PyVal
  lon : PyVal
deriving DecidableEq, Repr

/-- The Sofia fallback coordinates 42.6977, 23.3219 as explicit
rationals. -/
def SOFIA_COORDS : ℚ × ℚ :=
  (⟨426977, 10000, by decide, by decide⟩, ⟨233219, 10000, by decide, by decide⟩)

/-- get_coords: on a successful non-empty geocoding response take
float(lat) and float(lon) of the first element; on a raised request, an
empty response or a float() failure fall back to the Sofia
coordinates. -/
def get_coords (resp : Option (List GeoEntry)) : ℚ × ℚ :=
  match resp with
  | Option.none => SOFIA_COORDS
  | some [] => SOFIA_COORDS
  | some (e :: _) =>
      match pyFloat? e.lat, pyFloat? e.lon with
      | some la, some lo => (la, lo)
      | _, _ => SOFIA_COORDS

/-- C3: get_coords returns the parsed lat/lon pair of the first element
of a non-empty response, the Sofia fallback on an empty response or any
exception (a failed request or an unparsable coordinate), and is total,
so it never raises. -/
theorem c3_get_coords (resp : Option (List GeoEntry)) :
    (∀ e rest la lo, resp = some (e :: rest) →
        pyFloat? e.lat = some la → pyFloat? e.lon = some lo →
        get_coords resp = (la, lo)) ∧
    (resp = Option.none → get_coords resp = SOFIA_COORDS) ∧
    (resp = some [] → get_coords resp = SOFIA_COORDS) ∧
    (∀ e rest, resp = some (e :: rest) → pyFloat? e.lat = Option.none →
        get_coords resp = SOFIA_COORDS) ∧
    (∀ e rest, resp = some (e :: rest) → pyFloat? e.lon = Option.none →
        get_coords resp = SOFIA_COORDS) := by
  refine ⟨?_, ?_, ?_, ?_, ?_⟩
  · intro e rest la lo hr hla hlo
    simp [get_coords, hr, hla, hlo]
  · intro hr; simp [get_coords, hr]
  · intro hr; simp [get_coords, hr]
  · intro e rest hr hla
    simp [get_coords, hr, hla]
  · intro e rest hr hlo
    cases hla : pyFloat? e.lat with
    | none => simp [get_coords, hr, hla]
    | some la => simp [get_coords, hr, hla, hlo]

/-- C3 witness: the string coordinates of a concrete first element parse
to 42.5 and 23.25, an errored request and an empty array fall back to
Sofia, and an unparsable latitude falls back to Sofia. -/
theorem c3_get_coords_witness :
    get_coords (some [⟨PyVal.str "42.5", PyVal.str "23.25"⟩]) =
      (⟨85, 2, by decide, by decide⟩, ⟨93, 4, by decide, by decide⟩) ∧
    get_coords Option.none = SOFIA_COORDS ∧
    get_coords (some []) = SOFIA_COORDS ∧
    get_coords (some [⟨PyVal.str "north", PyVal.str "23.25"⟩]) = SOFIA_COORDS := by
  refine ⟨?_, ?_, ?_, ?_⟩
  · exact (c3_get_coords _).1 ⟨PyVal.str "42.5", PyVal.str "23.25"⟩ [] _ _ rfl
      (by decide) (by decide)
  · exact (c3_get_coords _).2.1 rfl
  · exact (c3_get_coords _).2.2.1 rfl
  · exact (c3_get_coords _).2.2.2.1 ⟨PyVal.str "north", PyVal.str "23.25"⟩ [] rfl
      (by decide)

/-- detect_city: the stripped body of the ipinfo response when the lookup
succeeds and strips to something non-empty, Sofia otherwise.  The
Option input is Option.none when urlopen raises. -/
def detect_city (resp : Option String) : String :=
  match resp with
  | Option.none => "Sofia"
  | some body =>
      let c := pyStrip body
      if c.isEmpty then "Sofia" else c

/-- C9: detect_city returns the stripped response body when the lookup
succeeds with a body that is non-empty after stripping, returns Sofia on
an exception or an empty body, and its result is never the empty
string (and the function is total, so it never raises). -/
theorem c9_detect_city (resp : Option String) :
    (∀ body, resp = some body → ¬(pyStrip body).isEmpty →
        detect_city resp = pyStrip body) ∧
    (resp = Option.none → detect_city resp = "Sofia") ∧
    (∀ body, resp = some body → (pyStrip body).isEmpty →
        detect_city resp = "Sofia") ∧
    ¬(detect_city resp).isEmpty := by
  refine ⟨?_, ?_, ?_, ?_⟩
  · intro body hr hne
    simp [detect_city, hr, hne]
  · intro hr; simp [detect_city, hr]
  · intro body hr he
    simp [detect_city, hr, he]
  · cases resp with
    | none => decide
    | some body =>
        have hd : detect_city (some body) =
            if (pyStrip body).isEmpty then "Sofia" else pyStrip body := rfl
        rw [hd]
        by_cases he : (pyStrip body).isEmpty
        · rw [if_pos he]; decide
        · rw [if_neg he]; exact he

/-- C9 witness: a padded Plovdiv response strips to Plovdiv, an errored
lookup and a whitespace body give Sofia, and all three results are
non-empty. -/
theorem c9_detect_city_witness :
    detect_city (some "  Plovdiv") = "Plovdiv" ∧
    detect_city Option.none = "Sofia" ∧
    detect_city (some "  ") = "Sofia" ∧
    ¬(detect_city (some "  Plovdiv")).isEmpty := by
  refine ⟨?_, ?_, ?_, ?_⟩
  · exact (c9_detect_city _).1 "  Plovdiv" rfl (by decide)
  · exact (c9_detect_city _).2.1 rfl
  · exact (c9_detect_city _).2.2.1 "  " rfl (by decide)
  · exact (c9_detect_city (some "  Plovdiv")).2.2.2

/-- (a ++ b).toList distributes (strings are one-field structures). -/
theorem strToList_append (a b : String) : (a ++ b).toList = a.toList ++ b.toList := rfl

/-- The prefix of the label before the first degree sign, the first part
of label.split of the degree sign with count one. -/
def beforeDegree (label : String) : String :=
  String.mk (label.toList.takeWhile (fun c => c ≠ '°'))

/-- Python s[-3:] at the character level: the last at most three
characters. -/
def lastThree (s : String) : String :=
  String.mk (s.toList.drop (s.toList.length - 3))

/-- The overlay text computed by _set_icon_and_label: the rounded
temperature followed by a degree sign when temp converts, else the last
at most three characters before the first degree sign of the label
followed by a degree sign when the label has one, else None. -/
def overlay_text (temp : Option ℚ) (label : String) : Option String :=
  match temp with
  | some t => some (toString (roundHalfEven t) ++ "°")
  | Option.none =>
      if '°' ∈ label.toList then
        some (lastThree (beforeDegree label) ++ "°")
      else Option.none

/-- The text finally handed to _render_icon_with_text:
overlay_text or label, with Python string truthiness. -/
def overlayUsed (temp : Option ℚ) (label : String) : String :=
  match overlay_text temp label with
  | some t => if t.toList.isEmpty then label else t
  | Option.none => label

/-- C6: the text overlaid on the rendered icon is the rounded temperature
with a degree sign whenever temp is present; otherwise, when the label
contains a degree sign, the last at most three characters of the label
before its first degree sign followed by a degree sign; otherwise the
full label. -/
theorem c6_overlay_text (temp : Option ℚ) (label : String) :
    (∀ t, temp = some t →
        overlayUsed temp label = toString (roundHalfEven t) ++ "°") ∧
    (temp = Option.none → '°' ∈ label.toList →
        overlayUsed temp label = lastThree (beforeDegree label) ++ "°") ∧
    (temp = Option.none → '°' ∉ label.toList →
        overlayUsed temp label = label) := by
  refine ⟨?_, ?_, ?_⟩
  · intro t ht
    subst ht
    simp [overlayUsed, overlay_text, strToList_append]
  · intro ht hc
    subst ht
    have hc2 : '°' ∈ label.data := hc
    simp [overlayUsed, overlay_text, hc2, strToList_append]
  · intro ht hc
    subst ht
    have hc2 : '°' ∉ label.data := hc
    simp [overlayUsed, overlay_text, hc2]

/-- C6 witness: temperature -11.3 rounds to the overlay -11 degrees; with
no temperature the label -12.7°C yields the overlay 2.7 degrees (the
sign is lost past three characters); the label N/A is used whole. -/
theorem c6_overlay_text_witness :
    overlayUsed (some ⟨-113, 10, by decide, by decide⟩) "-11.3°C" = "-11°" ∧
    overlayUsed Option.none "-12.7°C" = "2.7°" ∧
    overlayUsed Option.none "N/A" = "N/A" := by
  refine ⟨?_, ?_, ?_⟩
  · rw [(c6_overlay_text (some ⟨-113, 10, by decide, by decide⟩) "-11.3°C").1
      ⟨-113, 10, by decide, by decide⟩ rfl]
    decide
  · rw [(c6_overlay_text Option.none "-12.7°C").2.1 rfl (by decide)]
    decide
  · exact (c6_overlay_text Option.none "N/A").2.2 rfl (by decide)

/-- Decimal digits of n, most significant first. -/
def natDigits (n : ℕ) : List Char := Nat.toDigits 10 n

/-- Pad a digit list with leading zeros to width k. -/
def padZeros (cs : List Char) (k : ℕ) : List Char :=
  List.replicate (k - cs.length) '0' ++ cs

/-- Python str() of a float with a finite decimal expansion: sign,
integer part, point, fraction digits (at least one).  Rationals whose
denominator divides no power of ten up to eighteen (never produced by
the JSON decoder) print as a fraction. -/
def pyShowFloat (q : ℚ) : String :=
  let sign : List Char := if q.num < 0 then ['-'] else []
  let n := q.num.natAbs
  let den := q.den
  match (List.range 19).find? (fun k => 10 ^ k % den = 0) with
  | some k =>
      if k = 0 then String.mk (sign ++ natDigits n ++ ['.', '0'])
      else
        let scaled := n * (10 ^ k / den)
        String.mk (sign ++ natDigits (scaled / 10 ^ k) ++ ['.'] ++
          padZeros (natDigits (scaled % 10 ^ k)) k)
  | Option.none => String.mk (sign ++ natDigits n ++ ['/'] ++ natDigits den)

/-- Python str() of a scalar as interpolated into the detail lines. -/
def pyShow : PyVal → String
  | PyVal.none => "None"
  | PyVal.str s => s
  | PyVal.num q => pyShowFloat q
  | PyVal.int n => toString n

/-- str.replace of Z by +00:00 at the character level. -/
def replaceZ : List Char → List Char
  | [] => []
  | c :: rest =>
      if c = 'Z' then '+' :: '0' :: '0' :: ':' :: '0' :: '0' :: replaceZ rest
      else c :: replaceZ rest

/-- datetime.fromisoformat followed by strftime of hours and minutes:
after replacing Z, a well-formed ISO stamp yields its HH:MM slice;
a malformed one is a ValueError, Option.none. -/
def parseTimeHM (time : String) : Option String :=
  match replaceZ time.toList with
  | y1 :: y2 :: y3 :: y4 :: '-' :: m1 :: m2 :: '-' :: d1 :: d2 :: 'T' ::
      h1 :: h2 :: ':' :: n1 :: n2 :: _ =>
      if [y1, y2, y3, y4, m1, m2, d1, d2, h1, h2, n1, n2].all Char.isDigit then
        some (String.mk [h1, h2, ':', n1, n2])
      else Option.none
  | _ => Option.none

/-- One line of the hourly preview, Option.none when the time stamp does
not parse. -/
def detailRow (row : TsEntry) : Option String :=
  match parseTimeHM row.time with
  | Option.none => Option.none
  | some t =>
      some (" " ++ t ++ "  " ++ pyShow row.data.air_temperature ++ "°C  precip " ++
        pyShow (row.data.next1_precip.getD (PyVal.int 0)) ++ " mm  " ++
        row.data.next1_symbol.getD "")

/-- Render the hourly preview rows in order; the first failing row is the
exception that aborts the whole rendering. -/
def rowsRender : List TsEntry → Option (List String)
  | [] => some []
  | r :: rest =>
      match detailRow r, rowsRender rest with
      | some s, some l => some (s :: l)
      | _, _ => Option.none

/-- The heading lines of the details text: city, the optional update
stamp, and the current-conditions line. -/
def detailsHeader (city : String) (lastUpdateStr : Option String)
    (det : TsData) : List String :=
  ["City: " ++ city] ++
  (match lastUpdateStr with
   | some u => ["Updated: " ++ u]
   | Option.none => []) ++
  ["",
   "Now:  " ++ pyShow det.air_temperature ++ "°C   Wind " ++
     pyShow det.wind_speed ++ " m/s   Hum " ++ pyShow det.relative_humidity ++
     "%   Pres " ++ pyShow det.air_pressure_at_sea_level ++ " hPa   Code " ++
     symFrom det,
   "",
   "Hourly (next 8h):"]

/-- update_details_view, rendered to the string put into the text buffer:
the unavailable message without stored data; otherwise the header and the
first at most eight timeseries rows joined by newlines; indexing an empty
timeseries or a bad time stamp is caught and rendered as the error
message. -/
def update_details_text (city : String) (lastUpdateStr : Option String)
    (lastData : Option WeatherDoc) : String :=
  match lastData with
  | Option.none => "Weather data unavailable."
  | some doc =>
      match doc.timeseries with
      | [] => "Error rendering details: " ++ "list index out of range"
      | now :: _ =>
          match rowsRender (doc.timeseries.take 8) with
          | some rows =>
              String.intercalate "\n" (detailsHeader city lastUpdateStr now.data ++ rows)
          | Option.none => "Error rendering details: " ++ "Invalid isoformat string"

theorem rowsRender_forall2 (l : List TsEntry) (rows : List String)
    (h : rowsRender l = some rows) :
    List.Forall₂ (fun r s => detailRow r = some s) l rows := by
  induction l generalizing rows with
  | nil =>
      simp [rowsRender] at h
      subst h
      exact List.Forall₂.nil
  | cons r rest ih =>
      cases hr : detailRow r with
      | none => simp [rowsRender, hr] at h
      | some s =>
          cases hrest : rowsRender rest with
          | none => simp [rowsRender, hr, hrest] at h
          | some l2 =>
              simp [rowsRender, hr, hrest] at h
              subst h
              exact List.Forall₂.cons hr (ih l2 hrest)

/-- C7: with no stored document the details window shows exactly the
unavailable message; with a stored document whose first eight rows render,
the text is the header followed by exactly min 8 (length of the
timeseries) hourly rows taken from the front in order; an empty
timeseries or an unparsable time stamp renders as the error message
instead of propagating (the renderer is a total function). -/
theorem c7_details_view (city : String) (lu : Option String) :
    (update_details_text city lu Option.none = "Weather data unavailable.") ∧
    (∀ doc now rest rows, doc.timeseries = now :: rest →
        rowsRender (doc.timeseries.take 8) = some rows →
        (update_details_text city lu (some doc) =
            String.intercalate "\n" (detailsHeader city lu now.data ++ rows) ∧
         rows.length = min 8 doc.timeseries.length ∧
         List.Forall₂ (fun r s => detailRow r = some s) (doc.timeseries.take 8) rows)) ∧
    (∀ doc now rest, doc.timeseries = now :: rest →
        rowsRender (doc.timeseries.take 8) = Option.none →
        ∃ msg, update_details_text city lu (some doc) =
          "Error rendering details: " ++ msg) ∧
    (∀ doc, doc.timeseries = [] →
        ∃ msg, update_details_text city lu (some doc) =
          "Error rendering details: " ++ msg) := by
  refine ⟨rfl, ?_, ?_, ?_⟩
  · intro doc now rest rows hts hrows
    refine ⟨?_, ?_, ?_⟩
    · rw [hts] at hrows
      have hu : update_details_text city lu (some doc) =
          match rowsRender ((now :: rest).take 8) with
          | some rows2 =>
              String.intercalate "\n" (detailsHeader city lu now.data ++ rows2)
          | Option.none => "Error rendering details: " ++ "Invalid isoformat string" := by
        simp only [update_details_text]
        rw [hts]
      rw [hu, hrows]
    · have h2 := List.Forall₂.length_eq (rowsRender_forall2 _ _ hrows)
      rw [← h2, List.length_take]
    · exact rowsRender_forall2 _ _ hrows
  · intro doc now rest hts hrows
    rw [hts] at hrows
    refine ⟨"Invalid isoformat string", ?_⟩
    have hu : update_details_text city lu (some doc) =
        match rowsRender ((now :: rest).take 8) with
        | some rows2 =>
            String.intercalate "\n" (detailsHeader city lu now.data ++ rows2)
        | Option.none => "Error rendering details: " ++ "Invalid isoformat string" := by
      simp only [update_details_text]
      rw [hts]
    rw [hu, hrows]
  · intro doc hts
    refine ⟨"list index out of range", ?_⟩
    simp only [update_details_text]
    rw [hts]

/-- C7 witness: no data shows the unavailable message; a one-entry
document renders exactly one hourly row, min 8 1; a document whose one
time stamp is malformed and a document with an empty timeseries both
render an error message. -/
theorem c7_details_view_witness :
    update_details_text "Sofia" Option.none Option.none = "Weather data unavailable." ∧
    (update_details_text "Sofia" Option.none (some ⟨[tsWarm]⟩) =
        String.intercalate "\n" (detailsHeader "Sofia" Option.none tsWarm.data ++
          [" 12:00  3.52°C  precip 0 mm  "]) ∧
     [" 12:00  3.52°C  precip 0 mm  "].length = min 8 (WeatherDoc.mk [tsWarm]).timeseries.length ∧
     List.Forall₂ (fun r s => detailRow r = some s)
       ((WeatherDoc.mk [tsWarm]).timeseries.take 8) [" 12:00  3.52°C  precip 0 mm  "]) ∧
    (∃ msg, update_details_text "Sofia" Option.none (some ⟨[⟨"noz", tsWarm.data⟩]⟩) =
        "Error rendering details: " ++ msg) ∧
    (∃ msg, update_details_text "Sofia" Option.none (some ⟨[]⟩) =
        "Error rendering details: " ++ msg) := by
  refine ⟨(c7_details_view "Sofia" Option.none).1, ?_, ?_, ?_⟩
  · exact (c7_details_view "Sofia" Option.none).2.1 ⟨[tsWarm]⟩ tsWarm []
      [" 12:00  3.52°C  precip 0 mm  "] rfl (by decide)
  · exact (c7_details_view "Sofia" Option.none).2.2.1 ⟨[⟨"noz", tsWarm.data⟩]⟩
      ⟨"noz", tsWarm.data⟩ [] rfl (by decide)
  · exact (c7_details_view "Sofia" Option.none).2.2.2 ⟨[]⟩ rfl

/-- A UI mutation performed on the indicator, menu or details window. -/
inductive UIAction where
  | setLabel (text : String)
  | setIconFile (path : String)
  | setMenuTitle (title : String)
  | setDetailsText (text : String)
deriving DecidableEq, Repr

/-- One observable effect of the worker thread: the network fetch, a
closure posted to the UI loop through GLib.idle_add carrying its UI
mutations, or a UI mutation performed directly on the worker thread (the
code never emits this constructor). -/
inductive WorkerEffect where
  | netFetch
  | idlePost (actions : List UIAction)
  | directUI (a : UIAction)
deriving DecidableEq, Repr

/-- A thread started by refresh_async: its daemon flag and the effect
trace of its target. -/
structure SpawnedThread where
  daemon : Bool
  run : List WorkerEffect
deriving DecidableEq, Repr

/-- The UI mutations of the _apply closure: the indicator label and the
rendered icon through _set_icon_and_label, the menu title, and the
details text when the details window is open. -/
def applyActions (city : String) (detailsOpen : Bool) (lu : Option String)
    (doc : WeatherDoc) (label icon : String) : List UIAction :=
  [UIAction.setLabel label, UIAction.setIconFile icon,
   UIAction.setMenuTitle ("Weather — " ++ city ++ " · " ++ label)] ++
  (if detailsOpen then [UIAction.setDetailsText (update_details_text city lu (some doc))]
   else [])

/-- The effect trace of one worker: the fetch, then exactly one idle_add
post carrying either the _apply mutations or the _err menu-title
rewrite. -/
def worker_effects (city : String) (detailsOpen : Bool) (lu : Option String)
    (fetch : Except Unit WeatherDoc) : List WorkerEffect :=
  match workerOutcome fetch with
  | Except.error _ =>
      [WorkerEffect.netFetch,
       WorkerEffect.idlePost [UIAction.setMenuTitle (errorTitle city)]]
  | Except.ok (doc, ts0) =>
      let label := trayLabel (safe_temp ts0.data.air_temperature)
      let icon := icon_name_from_symbol (some (symFrom ts0.data))
      [WorkerEffect.netFetch,
       WorkerEffect.idlePost (applyActions city detailsOpen lu doc label icon)]

/-- refresh_async spawns exactly one daemon worker thread per cycle. -/
def refresh_async_spawns (city : String) (detailsOpen : Bool) (lu : Option String)
    (fetch : Except Unit WeatherDoc) : List SpawnedThread :=
  [⟨true, worker_effects city detailsOpen lu fetch⟩]

/-- C10: every refresh cycle starts exactly one worker thread, that
thread is a daemon, its trace is the network fetch followed by exactly
one idle_add post, and every UI mutation of the cycle sits inside that
posted closure — the trace contains no direct UI action. -/
theorem c10_worker_thread_structure (city : String) (detailsOpen : Bool)
    (lu : Option String) (fetch : Except Unit WeatherDoc) :
    ∃ actions, refresh_async_spawns city detailsOpen lu fetch =
      [⟨true, [WorkerEffect.netFetch, WorkerEffect.idlePost actions]⟩] := by
  cases hw : workerOutcome fetch with
  | error e =>
      exact ⟨[UIAction.setMenuTitle (errorTitle city)],
        by simp [refresh_async_spawns, worker_effects, hw]⟩
  | ok p =>
      obtain ⟨doc, ts0⟩ := p
      exact ⟨applyActions city detailsOpen lu doc
          (trayLabel (safe_temp ts0.data.air_temperature))
          (icon_name_from_symbol (some (symFrom ts0.data))),
        by simp [refresh_async_spawns, worker_effects, hw]⟩
